import Mathlib

/-!
Verification development for the cbe-resources-backend download gateway,
entitlement store and M-Pesa payment reconciliation engine.

The Lean definitions below are shallow embeddings of the Python source:
timestamps are naturals (seconds), Django rows are structures, database
tables are lists of rows, and nullable columns are Option fields.
-/

/-- One OrderItem row (orders/models.py, class OrderItem): the download
entitlement fields. A blank download_token is the empty string, matching the
CharField with blank=True whose falsiness the code tests. -/
structure OrderItem where
  download_token : String
  download_count : Nat
  download_limit : Nat
  download_expires_at : Option Nat
deriving Repr, DecidableEq

/-- The Product columns touched by the download path
(products/models.py): the aggregate download counter and whether
main_file.path exists on storage. -/
structure Product where
  download_count : Nat
  file_exists : Bool
  file_size : Nat
deriving Repr, DecidableEq

/-- products/models.py, Product.increment_downloads: sets
download_count = F(download_count) + 1, a database-side increment of the
current stored value. -/
def Product.increment_downloads (p : Product) : Product :=
  { p with download_count := p.download_count + 1 }

/-- orders/models.py, OrderItem.can_download: token present, not past
expiry (when an expiry is set), and count strictly below the limit. -/
def can_download (it : OrderItem) (now : Nat) : Bool :=
  if it.download_token == "" then false
  else if (match it.download_expires_at with
           | some e => decide (e < now)
           | none => false) then false
  else if it.download_count ≥ it.download_limit then false
  else true

/-- orders/models.py, OrderItem.increment_download: writes the in-memory
count + 1 back to the item row, then calls Product.increment_downloads on
the linked product. -/
def increment_download (it : OrderItem) (p : Product) : OrderItem × Product :=
  ({ it with download_count := it.download_count + 1 }, p.increment_downloads)

/-- The join the gateway queries: an OrderItem together with the owning
Order fields named in the lookup and the linked Product. -/
structure GatewayRow where
  item : OrderItem
  orderUser : Nat
  orderStatus : String
  product : Product
deriving Repr, DecidableEq

/-- The filter of orders/utils.py line 291: download_token = token,
order.user = requesting user, order.status = paid. -/
def matches_token (token : String) (userId : Nat) (r : GatewayRow) : Bool :=
  r.item.download_token == token && r.orderUser == userId && r.orderStatus == "paid"

/-- get_object_or_404(OrderItem, download_token=token, order__user=...,
order__status=paid): the first row matching the filter, if any. -/
def find_order_item (rows : List GatewayRow) (token : String) (userId : Nat) :
    Option GatewayRow :=
  rows.find? (matches_token token userId)

/-- One DownloadLog row (accounts/models.py, class DownloadLog), projected
to the fields the gateway branches differ on. -/
structure DownloadLogEntry where
  userId : Nat
  download_status : String
  error_message : Option String
  file_size : Option Nat
deriving Repr, DecidableEq

/-- An HTTP response: status code and body text. -/
structure HttpResp where
  status : Nat
  body : String
deriving Repr, DecidableEq

/-- Replace the first element satisfying the predicate, keeping the rest:
the persistence effect of saving the one fetched row. -/
def updateFirst (p : α → Bool) (f : α → α) : List α → List α
  | [] => []
  | x :: xs => if p x then f x :: xs else x :: updateFirst p f xs

/-- orders/utils.py, download_file: the download gateway handler. Branches:
token not found (get_object_or_404 raises Http404, which the final generic
except catches, returning 500 with no log row); can_download false (one log
row, limit_exceeded when count has reached the limit, else expired, 410);
file missing on storage (one log row with status failed, 404); success
(increment item and product counters, one log row with status success,
200). Returns the updated rows, the log table and the response. -/
def download_file (rows : List GatewayRow) (logs : List DownloadLogEntry)
    (token : String) (userId : Nat) (now : Nat) :
    List GatewayRow × List DownloadLogEntry × HttpResp :=
  match find_order_item rows token userId with
  | none => (rows, logs, ⟨500, "Download failed"⟩)
  | some row =>
    if can_download row.item now = false then
      (rows,
       logs ++ [⟨userId,
         (if row.item.download_count ≥ row.item.download_limit
          then "limit_exceeded" else "expired"),
         some (if row.item.download_count ≥ row.item.download_limit
               then "Download limit exceeded" else "Download link expired"),
         none⟩],
       ⟨410, "Download link has expired or exceeded limit"⟩)
    else if row.product.file_exists = false then
      (rows,
       logs ++ [⟨userId, "failed", some "File not found on server", none⟩],
       ⟨404, "File not found"⟩)
    else
      (updateFirst (matches_token token userId)
         (fun r =>
           let ip := increment_download r.item r.product
           { r with item := ip.1, product := ip.2 }) rows,
       logs ++ [⟨userId, "success", none, some row.product.file_size⟩],
       ⟨200, "file stream"⟩)

/-! Interleaving model of two concurrent download requests against the same
OrderItem. Each request performs two database actions, mirroring
download_file: first it fetches the row (get_object_or_404), then, if
can_download holds of its fetched snapshot, it writes snapshot count + 1
back (OrderItem.increment_download saves the in-memory value) and bumps the
product counter database-side. -/

/-- Phase of one in-flight download request. -/
inductive ReqPhase where
  | start : ReqPhase
  | fetched : OrderItem → ReqPhase
  | wasDone : Bool → ReqPhase
deriving Repr, DecidableEq

/-- Shared database row plus the two request states. -/
structure RaceState where
  item : OrderItem
  product : Product
  r1 : ReqPhase
  r2 : ReqPhase
deriving Repr, DecidableEq

/-- One atomic step of a single request: fetch the current row, or run the
check-then-write tail of download_file on the snapshot it fetched. The
write stores snapshot.download_count + 1 (the in-memory value of the
instance the request holds), not a database-side increment. -/
def request_step (now : Nat) (db : OrderItem) (pr : Product) :
    ReqPhase → OrderItem × Product × ReqPhase
  | .start => (db, pr, .fetched db)
  | .fetched snap =>
      if can_download snap now && pr.file_exists then
        ({ db with download_count := snap.download_count + 1 },
         pr.increment_downloads,
         .wasDone true)
      else (db, pr, .wasDone false)
  | .wasDone b => (db, pr, .wasDone b)

/-- Scheduler step: false advances request 1, true advances request 2. -/
def race_step (now : Nat) (s : RaceState) (turn : Bool) : RaceState :=
  if turn then
    let r := request_step now s.item s.product s.r2
    { s with item := r.1, product := r.2.1, r2 := r.2.2 }
  else
    let r := request_step now s.item s.product s.r1
    { s with item := r.1, product := r.2.1, r1 := r.2.2 }

/-- Run a schedule of interleaved steps. -/
def run_race (now : Nat) (sched : List Bool) (s : RaceState) : RaceState :=
  sched.foldl (race_step now) s

/-- Whether a request finished with a streamed file. -/
def request_succeeded : ReqPhase → Bool
  | .wasDone true => true
  | _ => false

/-- Number of requests that were served. -/
def success_count (s : RaceState) : Nat :=
  (if request_succeeded s.r1 then 1 else 0) +
  (if request_succeeded s.r2 then 1 else 0)

/-! Payment reconciliation: Order / Payment / MPesaPayment rows, the
mark_as_paid transition, the M-Pesa callback handler and the polling
fallback of the payment_status view. -/

/-- The Order columns the reconciliation engine touches
(orders/models.py, class Order), with the line items inlined. -/
structure OrderSt where
  userId : Nat
  status : String
  payment_date : Option Nat
  items : List OrderItem
deriving Repr, DecidableEq

/-- orders/models.py, OrderItem.generate_download_link: store a freshly
generated token and set expiry to now + 30 days (in seconds). The
download_count is left untouched. -/
def generate_download_link (it : OrderItem) (tok : String) (now : Nat) : OrderItem :=
  { it with download_token := tok, download_expires_at := some (now + 30 * 86400) }

/-- orders/models.py, Order.mark_as_paid: unconditionally set status to
paid and payment_date to now, regenerate the download link of every item
(generate_download_token is a hash of user id, product id, time and a
random nonce; the supply of fresh tokens is the fresh argument), and
enqueue the confirmation email task. The Bool records that the email task
was enqueued; there is no check of the previous status. -/
def mark_as_paid (o : OrderSt) (now : Nat) (fresh : Nat → String) : OrderSt × Bool :=
  ({ o with
      status := "paid",
      payment_date := some now,
      items := o.items.mapIdx (fun k it => generate_download_link it (fresh k) now) },
   true)

/-- The Payment columns the callback and poll paths write
(payments/models.py, class Payment). -/
structure PaymentSt where
  status : String
  transaction_id : Option String
  failure_reason : Option String
  processed_at : Option Nat
deriving Repr, DecidableEq

/-- The MPesaPayment row (payments/models.py, class MPesaPayment):
provider correlation id and the fields the callback fills in. -/
structure MpesaPaymentSt where
  checkout_request_id : String
  result_code : Option Int
  result_desc : Option String
  mpesa_receipt_number : Option String
  transaction_date : Option Nat
deriving Repr, DecidableEq

/-- An MPesaPayment with its 1:1 Payment and that payment's Order. -/
structure PayRow where
  mp : MpesaPaymentSt
  payment : PaymentSt
  order : OrderSt
deriving Repr, DecidableEq

/-- The fields mpesa_callback reads out of the provider JSON envelope
(Body.stkCallback). Missing keys are none; dict.get never raises. The
metadata list is the CallbackMetadata.Item name/value property bag. -/
structure StkCallbackData where
  checkoutRequestId : Option String
  resultCode : Option Int
  resultDesc : Option String
  metadata : List (String × String)
deriving Repr, DecidableEq

/-- Observable outcome of one callback invocation: the database after the
handler, the HTTP response, whether logger.error was called, and how many
confirmation emails were enqueued. -/
structure CallbackOut where
  db : List PayRow
  httpStatus : Nat
  httpBody : String
  errorLogged : Bool
  emailsEnqueued : Nat
deriving Repr, DecidableEq

/-- The numeral an all-digit character list denotes. -/
def digitsToNat (l : List Char) : Nat :=
  l.foldl (fun n c => n * 10 + (c.toNat - 48)) 0

/-- strptime with format yyyyMMddHHmmss succeeds exactly on a 14-digit
string; timestamps in this model are the numeral the digits denote. -/
def parseTransactionDate (v : String) : Option Nat :=
  if v.length == 14 && v.toList.all (·.isDigit) then some (digitsToNat v.toList)
  else none

/-- The property-bag loop of payments/views.py lines 61-79: fold the
Name/Value items, recording the receipt number and the transaction date
(falling back to now when the date fails to parse). -/
def applyMetadata (now : Nat) (mp : MpesaPaymentSt) (kv : String × String) :
    MpesaPaymentSt :=
  if kv.1 == "MpesaReceiptNumber" then { mp with mpesa_receipt_number := some kv.2 }
  else if kv.1 == "TransactionDate" then
    { mp with transaction_date := some ((parseTransactionDate kv.2).getD now) }
  else mp

/-- payments/views.py, mpesa_callback. none stands for a request body that
json.loads rejects (the outer except returns body ERROR, still status
200). A falsy CheckoutRequestID (absent or empty) and an unknown
correlation id are acknowledged with OK and logged, touching no row. On
result code 0 the payment is completed and the order marked paid (minting
and email via mark_as_paid); on any other result code the payment is
marked failed with the provider description. -/
def mpesa_callback (body : Option StkCallbackData) (db : List PayRow)
    (now : Nat) (fresh : Nat → String) : CallbackOut :=
  match body with
  | none => ⟨db, 200, "ERROR", true, 0⟩
  | some cb =>
    match cb.checkoutRequestId with
    | none => ⟨db, 200, "OK", true, 0⟩
    | some cid =>
      if cid == "" then ⟨db, 200, "OK", true, 0⟩
      else
        match db.find? (fun r => r.mp.checkout_request_id == cid) with
        | none => ⟨db, 200, "OK", true, 0⟩
        | some _ =>
          if cb.resultCode == some 0 then
            ⟨updateFirst (fun r => r.mp.checkout_request_id == cid)
               (fun r =>
                 let mp1 := { r.mp with
                              result_code := cb.resultCode,
                              result_desc := cb.resultDesc }
                 let mp2 := cb.metadata.foldl (applyMetadata now) mp1
                 let pay := { r.payment with
                              status := "completed",
                              transaction_id := mp2.mpesa_receipt_number,
                              processed_at := some now }
                 { mp := mp2, payment := pay,
                   order := (mark_as_paid r.order now fresh).1 }) db,
             200, "OK", false, 1⟩
          else
            ⟨updateFirst (fun r => r.mp.checkout_request_id == cid)
               (fun r =>
                 let mp1 := { r.mp with
                              result_code := cb.resultCode,
                              result_desc := cb.resultDesc }
                 let pay := { r.payment with
                              status := "failed",
                              failure_reason := cb.resultDesc }
                 { r with mp := mp1, payment := pay }) db,
             200, "OK", false, 0⟩

/-- The fields payment_status reads out of the stkpushquery JSON: this
provider endpoint returns ResultCode as a string. -/
structure QueryResp where
  resultCode : Option String
  resultDesc : Option String
deriving Repr, DecidableEq

/-- The polling fallback inside orders/views.py, payment_status (lines
355-377): only a payment still in processing is reconciled; qr is none
when the provider query raises (logged and swallowed). ResultCode "0"
completes the payment and marks the order paid; "1032" or "1037" cancels
it with the provider description (default "Payment cancelled"); any other
code leaves the row untouched. Returns the row and the emails enqueued. -/
def payment_status_poll (row : PayRow) (qr : Option QueryResp) (now : Nat)
    (fresh : Nat → String) : PayRow × Nat :=
  if row.payment.status == "processing" then
    match qr with
    | none => (row, 0)
    | some resp =>
      if resp.resultCode == some "0" then
        let pay := { row.payment with
                     status := "completed",
                     processed_at := some now }
        ({ row with payment := pay, order := (mark_as_paid row.order now fresh).1 }, 1)
      else if resp.resultCode == some "1032" || resp.resultCode == some "1037" then
        let pay := { row.payment with
                     status := "cancelled",
                     failure_reason := some (resp.resultDesc.getD "Payment cancelled") }
        ({ row with payment := pay }, 0)
      else (row, 0)
  else (row, 0)

/-! Phone normalization: core/validators.py validate_mpesa_phone and the
inline normalization of payments/mpesa.py MPesaAPI.stk_push. String
manipulation is carried out on the character list so that every
definition evaluates by kernel reduction. -/

/-- str.startswith on the character lists. -/
def strStartsWith (s pre : String) : Bool := pre.toList.isPrefixOf s.toList

/-- Python slicing s[n:] on the character list. -/
def strDrop (s : String) (n : Nat) : String := String.mk (s.toList.drop n)

/-- re.sub of the class [whitespace, dash] with the empty string. -/
def cleanPhone (v : String) : String :=
  String.mk (v.toList.filter (fun c => !(c.isWhitespace || c == '-')))

/-- The two rewrite rules of validate_mpesa_phone: leading 0 becomes 254,
a leading +254 loses the plus; anything else passes through. -/
def normalize254 (s : String) : String :=
  if strStartsWith s "0" then "254" ++ strDrop s 1
  else if strStartsWith s "+254" then strDrop s 1
  else s

/-- The anchored pattern 254[17] followed by exactly eight digits. -/
def matchesMpesaPattern (s : String) : Bool :=
  match s.toList with
  | '2' :: '5' :: '4' :: p :: rest =>
      (p == '1' || p == '7') && rest.length == 8 && rest.all (·.isDigit)
  | _ => false

/-- core/validators.py, validate_mpesa_phone: clean, normalize, then
either return the canonical 254 form or raise ValidationError. -/
def validate_mpesa_phone (v : String) : Except String String :=
  if matchesMpesaPattern (normalize254 (cleanPhone v)) then
    Except.ok (normalize254 (cleanPhone v))
  else Except.error "Enter a valid M-Pesa phone number (Safaricom or Airtel Kenya)"

/-- Equality of validation outcomes is decidable. -/
instance : DecidableEq (Except String String) := fun a b =>
  match a, b with
  | Except.ok x, Except.ok y =>
      if h : x = y then isTrue (congrArg Except.ok h)
      else isFalse (fun hc => h (Except.ok.inj hc))
  | Except.error x, Except.error y =>
      if h : x = y then isTrue (congrArg Except.error h)
      else isFalse (fun hc => h (Except.error.inj hc))
  | Except.ok _, Except.error _ => isFalse (fun hc => Except.noConfusion hc)
  | Except.error _, Except.ok _ => isFalse (fun hc => Except.noConfusion hc)

/-- The phone rewriting inside MPesaAPI.stk_push (payments/mpesa.py lines
71-77): strip one leading plus, then 0 becomes 254, and any number not
starting with 254 gets 254 prepended. No pattern check follows. -/
def stk_push_phone (phone : String) : String :=
  let p := if strStartsWith phone "+" then strDrop phone 1 else phone
  if strStartsWith p "0" then "254" ++ strDrop p 1
  else if !(strStartsWith p "254") then "254" ++ p
  else p

/-- The STK push request payload built by MPesaAPI.stk_push and posted to
the provider. stk_push builds and submits this for every input phone:
the function is total, there is no rejection branch before the network
call. -/
structure StkPushRequest where
  businessShortCode : String
  amount : Nat
  partyA : String
  phoneNumber : String
  accountReference : String
  transactionDesc : String
deriving Repr, DecidableEq

/-- payments/mpesa.py, MPesaAPI.stk_push, restricted to the request it
sends: normalize the phone and fill the payload. -/
def stk_push_request (phone : String) (amount : Nat)
    (accountReference transactionDesc shortcode : String) : StkPushRequest :=
  { businessShortCode := shortcode, amount := amount,
    partyA := stk_push_phone phone, phoneNumber := stk_push_phone phone,
    accountReference := accountReference, transactionDesc := transactionDesc }

/-! Suspicion scoring: orders/utils.py, is_suspicious_request. -/

/-- The ua_info fields is_suspicious_request reads. -/
structure UAInfo where
  raw_string : String
  browser_family : String
  is_bot : Bool
deriving Repr, DecidableEq

/-- Whether pat occurs as a contiguous run inside l. -/
def hasSub (pat : List Char) : List Char → Bool
  | [] => pat.isEmpty
  | c :: t => pat.isPrefixOf (c :: t) || hasSub pat t

/-- The Python substring test pat in s. -/
def strContains (s pat : String) : Bool := hasSub pat.toList s.toList

/-- str.lower, mapped over the character list. -/
def strToLower (s : String) : String := String.mk (s.toList.map Char.toLower)

/-- The headless-automation keyword list of is_suspicious_request. -/
def headless_keywords : List String := ["headless", "phantom", "selenium", "webdriver"]

/-- The indicator list accumulated by orders/utils.py,
is_suspicious_request, in source order: detected bot, missing or short
user agent, Internet Explorer, unresolved browser family, missing
Accept-Language header, headless keywords in the lowercased user agent. -/
def suspicious_indicators (ua : UAInfo) (hasAcceptLanguage : Bool) : List String :=
  (if ua.is_bot then ["detected_bot"] else []) ++
  (if ua.raw_string = "" ∨ ua.raw_string.length < 10
   then ["minimal_user_agent"] else []) ++
  (if ua.browser_family = "Internet Explorer" then ["outdated_browser"] else []) ++
  (if ua.browser_family = "Other" ∨ ua.browser_family = "Unknown"
   then ["unknown_browser"] else []) ++
  (if !hasAcceptLanguage then ["no_accept_language"] else []) ++
  (if headless_keywords.any (fun k => strContains (strToLower ua.raw_string) k)
   then ["headless_browser"] else [])

/-- The record is_suspicious_request returns. -/
structure SecurityCheck where
  is_suspicious : Bool
  risk_score : Nat
  indicators : List String
deriving Repr, DecidableEq

/-- orders/utils.py, is_suspicious_request: suspicious iff at least one
indicator fired; the risk score is the indicator count. -/
def is_suspicious_request (ua : UAInfo) (hasAcceptLanguage : Bool) : SecurityCheck :=
  let inds := suspicious_indicators ua hasAcceptLanguage
  { is_suspicious := decide (0 < inds.length),
    risk_score := inds.length,
    indicators := inds }

/-! Theorems. -/

/-- C1 (counterexample): the claim that every call to download_file writes
exactly one DownloadLog row fails on the token-not-found branch: calling
the gateway with a token matching no entitlement leaves the log table
empty instead of adding one row. -/
theorem download_file_unknown_token_writes_no_log :
    ¬ ((download_file [] [] "tok" 1 0).2.1.length =
        ([] : List DownloadLogEntry).length + 1) := by decide

/-- C1 (amended): a call to download_file writes exactly one DownloadLog
row when the token lookup resolves an order item (the expired,
limit-exceeded, file-missing and success branches), and writes no row when
the lookup fails. -/
theorem download_file_log_count (rows : List GatewayRow)
    (logs : List DownloadLogEntry) (token : String) (userId : Nat) (now : Nat) :
    (download_file rows logs token userId now).2.1.length =
      logs.length +
        (if (find_order_item rows token userId).isSome then 1 else 0) := by
  unfold download_file
  cases h : find_order_item rows token userId with
  | none => simp [h]
  | some row =>
    simp only [h, Option.isSome_some, if_true]
    split_ifs <;> simp

/-- C2 (code bug): two concurrent download requests against an item with
download_count = 4 and download_limit = 5 (one slot left, k = 1), each
following the fetch / can_download / read-then-write increment of
download_file and OrderItem.increment_download, can interleave as fetch,
fetch, write, write so that both are served: 2 successes where the claim
requires exactly k = 1. The sequential schedule serves exactly one. -/
theorem concurrent_downloads_exceed_entitlement :
    success_count (run_race 0 [false, true, false, true]
      ⟨⟨"tok", 4, 5, none⟩, ⟨100, true, 9⟩, .start, .start⟩) = 2 ∧
    (run_race 0 [false, true, false, true]
      ⟨⟨"tok", 4, 5, none⟩, ⟨100, true, 9⟩, .start, .start⟩).item.download_count = 5 ∧
    (5 : Nat) - 4 = 1 ∧
    success_count (run_race 0 [false, false, true, true]
      ⟨⟨"tok", 4, 5, none⟩, ⟨100, true, 9⟩, .start, .start⟩) = 1 := by decide

/-- C3 (confirmed): whenever the gateway lookup returns an order item for
a token and requesting user, that item's owning order belongs to the
requesting user and has status paid; a token never resolves for any other
user. -/
theorem find_order_item_owner_and_paid (rows : List GatewayRow)
    (token : String) (userId : Nat) (row : GatewayRow)
    (h : find_order_item rows token userId = some row) :
    row.orderUser = userId ∧ row.orderStatus = "paid" := by
  unfold find_order_item at h
  have hp := List.find?_some h
  unfold matches_token at hp
  simp only [Bool.and_eq_true, beq_iff_eq] at hp
  exact ⟨hp.1.2, hp.2⟩

/-- C3 (witness): the ownership theorem applied to a one-row table. -/
theorem find_order_item_owner_and_paid_witness :
    (⟨⟨"tok", 0, 5, none⟩, 7, "paid", ⟨0, true, 3⟩⟩ : GatewayRow).orderUser = 7 ∧
    (⟨⟨"tok", 0, 5, none⟩, 7, "paid", ⟨0, true, 3⟩⟩ : GatewayRow).orderStatus = "paid" :=
  find_order_item_owner_and_paid
    [⟨⟨"tok", 0, 5, none⟩, 7, "paid", ⟨0, true, 3⟩⟩] "tok" 7
    ⟨⟨"tok", 0, 5, none⟩, 7, "paid", ⟨0, true, 3⟩⟩ (by decide)

/-- C4 (code bug): re-processing a success callback for an order that is
already paid is not a no-op: mark_as_paid runs again, the item's
download token is overwritten (tokA becomes the fresh tokB), its expiry is
reset, and a second confirmation email is enqueued. -/
theorem duplicate_callback_reminting :
    (mpesa_callback (some ⟨some "ws_CO_1", some 0, some "ok", []⟩)
        [⟨⟨"ws_CO_1", some 0, some "ok", some "R1", some 50⟩,
          ⟨"completed", some "R1", none, some 50⟩,
          ⟨7, "paid", some 50, [⟨"tokA", 2, 5, some 1000⟩]⟩⟩]
        60 (fun _ => "tokB")).emailsEnqueued = 1 ∧
    ((mpesa_callback (some ⟨some "ws_CO_1", some 0, some "ok", []⟩)
        [⟨⟨"ws_CO_1", some 0, some "ok", some "R1", some 50⟩,
          ⟨"completed", some "R1", none, some 50⟩,
          ⟨7, "paid", some 50, [⟨"tokA", 2, 5, some 1000⟩]⟩⟩]
        60 (fun _ => "tokB")).db.map
      (fun r => r.order.items.map (fun it => it.download_token))) = [["tokB"]] ∧
    ("tokA" : String) ≠ "tokB" := by decide

/-- C5 (counterexample): the outbound initiation path does not reject a
phone whose normalized form fails the 254[17] pattern: stk_push builds and
submits the provider request for the invalid-prefix input 0812345678,
carrying 254812345678. -/
theorem stk_push_sends_invalid_prefix_phone :
    matchesMpesaPattern
      (stk_push_request "0812345678" 100 "ORDER_1" "d" "174379").phoneNumber = false ∧
    (stk_push_request "0812345678" 100 "ORDER_1" "d" "174379").phoneNumber =
      "254812345678" := by decide

/-- C5 (amended): the validation path maps 0712345678, +254712345678 and
254712345678 to 254712345678 and rejects 0812345678, and every number it
accepts matches the 254[17] pattern; the outbound stk_push path applies
the same three normalizations but performs no pattern check: it fills the
request with stk_push_phone of the input for every input. -/
theorem phone_normalization_amended :
    validate_mpesa_phone "0712345678" = Except.ok "254712345678" ∧
    validate_mpesa_phone "+254712345678" = Except.ok "254712345678" ∧
    validate_mpesa_phone "254712345678" = Except.ok "254712345678" ∧
    (∃ e, validate_mpesa_phone "0812345678" = Except.error e) ∧
    (∀ v t, validate_mpesa_phone v = Except.ok t → matchesMpesaPattern t = true) ∧
    (∀ phone amount ar td sc,
      (stk_push_request phone amount ar td sc).phoneNumber = stk_push_phone phone) ∧
    stk_push_phone "0712345678" = "254712345678" ∧
    stk_push_phone "+254712345678" = "254712345678" ∧
    stk_push_phone "254712345678" = "254712345678" := by
  refine ⟨by decide, by decide, by decide,
    ⟨"Enter a valid M-Pesa phone number (Safaricom or Airtel Kenya)", by decide⟩,
    ?_, fun _ _ _ _ _ => rfl, by decide, by decide, by decide⟩
  intro v t h
  unfold validate_mpesa_phone at h
  split at h
  · cases h
    assumption
  · cases h

/-- C5 (witness): the acceptance part of the amended theorem applied to
the canonical input. -/
theorem phone_normalization_amended_witness :
    matchesMpesaPattern "254712345678" = true :=
  phone_normalization_amended.2.2.2.2.1 "0712345678" "254712345678" (by decide)

/-- C6 (counterexample): the callback endpoint does not return one fixed
acknowledgement body: an unparseable payload is answered with body ERROR
while a parsed payload missing the correlation id is answered with body
OK; both responses do carry HTTP status 200. -/
theorem callback_body_not_fixed :
    (mpesa_callback none [] 0 (fun _ => "")).httpBody = "ERROR" ∧
    (mpesa_callback (some ⟨none, none, none, []⟩) [] 0 (fun _ => "")).httpBody = "OK" ∧
    ("ERROR" : String) ≠ "OK" ∧
    (mpesa_callback none [] 0 (fun _ => "")).httpStatus = 200 ∧
    (mpesa_callback (some ⟨none, none, none, []⟩) [] 0 (fun _ => "")).httpStatus = 200 := by
  decide

/-- C6 (amended): every callback invocation responds HTTP 200; a parsed
payload with a missing or empty correlation id, or one matching no stored
provider payment, is acknowledged with body OK, leaves every row unchanged
and logs an internal error; only an unparseable payload is acknowledged
with body ERROR (still 200, rows unchanged, error logged). -/
theorem callback_always_200_amended (body : Option StkCallbackData)
    (db : List PayRow) (now : Nat) (fresh : Nat → String) :
    (mpesa_callback body db now fresh).httpStatus = 200 ∧
    mpesa_callback none db now fresh = ⟨db, 200, "ERROR", true, 0⟩ ∧
    (∀ cb : StkCallbackData, cb.checkoutRequestId = none →
       mpesa_callback (some cb) db now fresh = ⟨db, 200, "OK", true, 0⟩) ∧
    (∀ (cb : StkCallbackData) (cid : String), cb.checkoutRequestId = some cid →
       cid ≠ "" →
       db.find? (fun r => r.mp.checkout_request_id == cid) = none →
       mpesa_callback (some cb) db now fresh = ⟨db, 200, "OK", true, 0⟩) := by
  refine ⟨?_, rfl, ?_, ?_⟩
  · cases body with
    | none => rfl
    | some cb =>
      rcases cb with ⟨cidq, rc, rd, md⟩
      cases cidq with
      | none => rfl
      | some cid =>
        simp only [mpesa_callback]
        by_cases hc : cid = ""
        · simp [hc]
        · rw [if_neg (by simp [hc])]
          cases hf : db.find? (fun r => r.mp.checkout_request_id == cid) with
          | none => rfl
          | some r =>
            split
            · rfl
            · split <;> rfl
  · intro cb h
    rcases cb with ⟨cidq, rc, rd, md⟩
    cases h
    rfl
  · intro cb cid h hne hf
    rcases cb with ⟨cidq, rc, rd, md⟩
    cases h
    simp only [mpesa_callback]
    rw [if_neg (by simp [hne]), hf]

/-- C6 (witness): the unknown-correlation-id case of the amended theorem
at a concrete payload and empty table. -/
theorem callback_always_200_amended_witness :
    mpesa_callback (some ⟨some "X", some 0, none, []⟩) [] 0 (fun _ => "") =
      ⟨[], 200, "OK", true, 0⟩ :=
  (callback_always_200_amended (some ⟨some "X", some 0, none, []⟩) [] 0
    (fun _ => "")).2.2.2 ⟨some "X", some 0, none, []⟩ "X" rfl (by decide) rfl

/-- C7 (counterexample): result code 1032 (cancelled by user) is not
interpreted identically on the two paths: the callback handler marks the
payment failed, while the polling fallback marks it cancelled. -/
theorem callback_1032_failed_poll_cancelled :
    ((mpesa_callback
        (some ⟨some "ws_CO_2", some 1032, some "Request cancelled by user", []⟩)
        [⟨⟨"ws_CO_2", none, none, none, none⟩, ⟨"processing", none, none, none⟩,
          ⟨7, "processing", none, [⟨"", 0, 5, none⟩]⟩⟩] 60 (fun _ => "t")).db.map
       (fun r => r.payment.status)) = ["failed"] ∧
    (payment_status_poll
        ⟨⟨"ws_CO_2", none, none, none, none⟩, ⟨"processing", none, none, none⟩,
          ⟨7, "processing", none, [⟨"", 0, 5, none⟩]⟩⟩
        (some ⟨some "1032", some "Request cancelled by user"⟩) 60
        (fun _ => "t")).1.payment.status = "cancelled" ∧
    ("failed" : String) ≠ "cancelled" := by decide

/-- C7 (amended): result code 0 drives the payment to completed and the
order to paid on both paths, but the interpretations are separate and
disagree on non-zero codes: the callback marks every non-zero code,
including 1032 and 1037, as failed, while the polling fallback maps the
string codes 1032 and 1037 to cancelled and leaves any other non-zero
code unprocessed. -/
theorem result_code_interpretation_amended (row : PayRow) (cid : String)
    (rd : Option String) (md : List (String × String)) (now : Nat)
    (fresh : Nat → String) (hcid : cid ≠ "")
    (hrow : row.mp.checkout_request_id = cid) :
    ((mpesa_callback (some ⟨some cid, some 0, rd, md⟩) [row] now fresh).db.map
       (fun r => (r.payment.status, r.order.status)) = [("completed", "paid")]) ∧
    (∀ c : Int, c ≠ 0 →
       (mpesa_callback (some ⟨some cid, some c, rd, md⟩) [row] now fresh).db.map
         (fun r => r.payment.status) = ["failed"]) ∧
    (row.payment.status = "processing" →
       ((payment_status_poll row (some ⟨some "0", rd⟩) now fresh).1.payment.status =
          "completed" ∧
        (payment_status_poll row (some ⟨some "0", rd⟩) now fresh).1.order.status =
          "paid") ∧
       (payment_status_poll row (some ⟨some "1032", rd⟩) now fresh).1.payment.status =
         "cancelled" ∧
       (payment_status_poll row (some ⟨some "1037", rd⟩) now fresh).1.payment.status =
         "cancelled" ∧
       (∀ c : String, c ≠ "0" → c ≠ "1032" → c ≠ "1037" →
          payment_status_poll row (some ⟨some c, rd⟩) now fresh = (row, 0))) := by
  have hbeq : (row.mp.checkout_request_id == cid) = true := beq_iff_eq.mpr hrow
  refine ⟨?_, ?_, ?_⟩
  · unfold mpesa_callback
    dsimp only
    rw [if_neg (by simp [hcid])]
    simp [List.find?, hbeq, updateFirst, mark_as_paid]
  · intro c hc
    unfold mpesa_callback
    dsimp only
    rw [if_neg (by simp [hcid])]
    simp [List.find?, hbeq, updateFirst, hc]
  · intro hproc
    have hpb : (row.payment.status == "processing") = true := beq_iff_eq.mpr hproc
    refine ⟨⟨?_, ?_⟩, ?_, ?_, ?_⟩
    · simp [payment_status_poll, hpb]
    · simp [payment_status_poll, hpb, mark_as_paid]
    · simp [payment_status_poll, hpb]
    · simp [payment_status_poll, hpb]
    · intro c h0 h32 h37
      simp [payment_status_poll, hpb, h0, h32, h37]

/-- C7 (witness): the amended theorem at a concrete processing payment. -/
theorem result_code_interpretation_amended_witness :
    ((mpesa_callback (some ⟨some "ws", some 0, none, []⟩)
        [⟨⟨"ws", none, none, none, none⟩, ⟨"processing", none, none, none⟩,
          ⟨7, "processing", none, []⟩⟩] 0 (fun _ => "t")).db.map
       (fun r => (r.payment.status, r.order.status)) = [("completed", "paid")]) :=
  (result_code_interpretation_amended
    ⟨⟨"ws", none, none, none, none⟩, ⟨"processing", none, none, none⟩,
      ⟨7, "processing", none, []⟩⟩ "ws" none [] 0 (fun _ => "t")
    (by decide) rfl).1

/-- C8 (confirmed): can_download is false exactly when the usage count has
reached the limit, or the current time is strictly past a set expiry, or
the download token is absent (blank); otherwise it is true. -/
theorem can_download_false_iff (it : OrderItem) (now : Nat) :
    can_download it now = false ↔
      (it.download_count ≥ it.download_limit ∨
       (∃ e, it.download_expires_at = some e ∧ e < now) ∨
       it.download_token = "") := by
  rcases it with ⟨tok, cnt, lim, exp⟩
  unfold can_download
  dsimp only
  by_cases ht : tok = ""
  · simp [ht]
  · cases exp with
    | none => simp [ht]
    | some e =>
      by_cases he : e < now
      · simp [ht, he]
      · by_cases hl : cnt ≥ lim <;> simp [ht, he, hl]

/-- C9 (confirmed): the suspicion check reports suspicious exactly when at
least one indicator fired, its risk score is the number of indicators
fired, and a user-agent string shorter than 10 characters (the absent
user agent being the empty string) forces suspicious with risk score at
least 1. -/
theorem is_suspicious_request_spec (ua : UAInfo) (hal : Bool) :
    ((is_suspicious_request ua hal).is_suspicious = true ↔
       (is_suspicious_request ua hal).indicators ≠ []) ∧
    (is_suspicious_request ua hal).risk_score =
      (is_suspicious_request ua hal).indicators.length ∧
    (ua.raw_string.length < 10 →
       (is_suspicious_request ua hal).is_suspicious = true ∧
       1 ≤ (is_suspicious_request ua hal).risk_score) := by
  refine ⟨?_, rfl, ?_⟩
  · unfold is_suspicious_request
    dsimp only
    rw [decide_eq_true_eq]
    exact List.length_pos
  · intro h
    have hm : 1 ≤ (suspicious_indicators ua hal).length := by
      unfold suspicious_indicators
      simp only [List.length_append]
      rw [if_pos (Or.inr h)]
      simp only [List.length_singleton]
      omega
    refine ⟨?_, hm⟩
    unfold is_suspicious_request
    dsimp only
    rw [decide_eq_true_eq]
    omega

/-- C9 (witness): the short-user-agent part of the suspicion theorem at a
concrete bot-like request. -/
theorem is_suspicious_request_spec_witness :
    (is_suspicious_request ⟨"curl", "Other", true⟩ false).is_suspicious = true ∧
    1 ≤ (is_suspicious_request ⟨"curl", "Other", true⟩ false).risk_score :=
  (is_suspicious_request_spec ⟨"curl", "Other", true⟩ false).2.2 (by decide)

/-- C10 (confirmed): a successful consume mutates more than the order
item: increment_download raises the item's download_count by one and also
raises the owning product's aggregate download_count by one, leaving the
other fields of both rows unchanged. -/
theorem increment_download_also_updates_product (it : OrderItem) (p : Product) :
    (increment_download it p).1 =
      { it with download_count := it.download_count + 1 } ∧
    (increment_download it p).2 =
      { p with download_count := p.download_count + 1 } :=
  ⟨rfl, rfl⟩
